import Mathlib

/-!
Shallow embedding of the periodic pose-capture pipeline of
`vive_data_tracker.py` (functions `get_device_name_type_and_serial`,
`get_tracker_data`, `write_data_to_files`, `record_for_preset_time`,
`record_indefinitely`).

Modelling choices:
* `time.time()` is modelled by an environment clock `Env.clock : Nat → ℚ`
  indexed by the number of clock calls made so far; the call counter is
  threaded explicitly through every definition, matching the textual order
  of the `time.time()` calls in the source.
* The OpenVR pose array returned by `getDeviceToAbsoluteTrackingPose` is
  modelled by `Env.poses : Nat → List Pose` (one pose list per sweep; the
  source uses a fixed array of `k_unMaxTrackedDeviceCount` slots, the
  claims do not depend on the concrete bound).
* Python dictionaries keyed by role strings become association lists
  `List (String × _)`; lookup and update touch the first matching key,
  as dictionary keys are unique.
* The filesystem is an association list from file name to the list of CSV
  rows the file holds; opening in append mode creates a missing file empty,
  and `tell() == 0` is "the current row list is empty".
* Floating point scalars (matrix entries, timestamps) are modelled as ℚ.
* The global cancellation flag `another` is modelled by
  `Env.another : Nat → Bool`, read once per loop-condition check.
* The unbounded `while` loops are modelled with explicit fuel; a run that
  exhausts its fuel yields `none`, a run whose loop condition turns false
  yields `some finalState`, and a raised exception yields `Except.error`.
-/

/-- OpenVR device-class constant `TrackedDeviceClass_HMD`. -/
def TrackedDeviceClass_HMD : Nat := 1

/-- OpenVR device-class constant `TrackedDeviceClass_Controller`. -/
def TrackedDeviceClass_Controller : Nat := 2

/-- OpenVR device-class constant `TrackedDeviceClass_TrackingReference`. -/
def TrackedDeviceClass_TrackingReference : Nat := 4

/-- One entry of the pose array: validity flag plus the 3×4 device-to-absolute
transform (`mDeviceToAbsoluteTracking`), row major. -/
structure Pose where
  bPoseIsValid : Bool
  mDeviceToAbsoluteTracking : List (List ℚ)
deriving DecidableEq

/-- One record appended by `get_tracker_data`: the Python list
`[timestamp, i, device_name, device_serial] + flat_pose`. -/
structure PoseSample where
  timestamp : ℚ
  deviceId : Nat
  deviceName : String
  deviceSerial : String
  pose : List ℚ
deriving DecidableEq

/-- The role-keyed dictionary `{"Headset": [...], "Controller": [...],
"Tracker": [...], "Unknown": [...]}`. -/
abbrev DeviceData := List (String × List PoseSample)

/-- A CSV row: either the fixed 16-column header or a data row carrying one
pose sample. -/
inductive Row where
  | header : Row
  | data : PoseSample → Row
deriving DecidableEq

/-- The filesystem: file name ↦ rows currently in the file. -/
abbrev FS := List (String × List Row)

/-- The external world as seen by the pipeline: the wall clock (indexed by
clock-call count), the pose array produced by each sweep, the SDK identity
lookups per device slot, and the global `another` flag read at each
loop-condition check. -/
structure Env where
  clock : Nat → ℚ
  poses : Nat → List Pose
  devName : Nat → String
  devSerial : Nat → String
  devClass : Nat → Nat
  another : Nat → Bool

/-- The role keys in the order the source's dictionary literal lists them. -/
def standardKeys : List String := ["Headset", "Controller", "Tracker", "Unknown"]

/-- The fresh, empty role-keyed buffer literal of the source. -/
def emptyDD : DeviceData :=
  [("Headset", []), ("Controller", []), ("Tracker", []), ("Unknown", [])]

/-- Key list of a role-keyed dictionary. -/
def ddKeys (dd : DeviceData) : List String := dd.map Prod.fst

/-- Total number of buffered records across all roles
(`sum(len(v) for v in data_buffer.values())`). -/
def totalBuf (dd : DeviceData) : Nat := (dd.map (fun e => e.2.length)).sum

/-- All records of a role-keyed dictionary, role buckets concatenated. -/
def allRecords (dd : DeviceData) : List PoseSample := (dd.map Prod.snd).flatten

/-- `device_data[device_type].append(record)`: append one record to the (first,
hence unique) entry of the given role. -/
def addTo : DeviceData → String → PoseSample → DeviceData
  | [], _, _ => []
  | (k, vs) :: rest, ty, r =>
    if k = ty then (k, vs ++ [r]) :: rest else (k, vs) :: addTo rest ty r

/-- `data_buffer[key].extend(value)` for one key. -/
def extendAt : DeviceData → String → List PoseSample → DeviceData
  | [], _, _ => []
  | (k, vs) :: rest, key, v =>
    if k = key then (k, vs ++ v) :: rest else (k, vs) :: extendAt rest key v

/-- The absorb loop `for key, value in device_data.items():
data_buffer[key].extend(value)`. -/
def extendBuf (buf : DeviceData) (dd : DeviceData) : DeviceData :=
  dd.foldl (fun b e => extendAt b e.1 e.2) buf

/-- `get_device_name_type_and_serial(device_index)`: name, role string
derived from the device class, and serial. The returned triple is
`(device_name, device_type, device_serial)` as in the source. -/
def get_device_name_type_and_serial (env : Env) (device_index : Nat) :
    String × String × String :=
  let device_class := env.devClass device_index
  let device_type :=
    if device_class = TrackedDeviceClass_HMD then "Headset"
    else if device_class = TrackedDeviceClass_Controller then "Controller"
    else if device_class = TrackedDeviceClass_TrackingReference then "Tracker"
    else "Unknown"
  (env.devName device_index, device_type, env.devSerial device_index)

/-- Number of pose slots reporting a valid pose. -/
def validCount (ps : List Pose) : Nat :=
  (ps.filter (fun p => p.bPoseIsValid)).length

/-- Number of valid-pose slots strictly before slot `k` — equivalently, how
many `time.time()` calls the per-device loop has already made when it
reaches slot `k`. -/
def validBefore (ps : List Pose) (k : Nat) : Nat :=
  ((ps.take k).filter (fun p => p.bPoseIsValid)).length

/-- The `for i, pose in enumerate(poses)` loop body of `get_tracker_data`:
for each valid pose, read the clock once (one `time.time()` call), look up
identity, flatten the transform and append the record to its role bucket.
`i` is the running slot index, `t` the clock-call counter. -/
def sweepGo (env : Env) : List Pose → Nat → Nat → DeviceData → DeviceData × Nat
  | [], _, t, dd => (dd, t)
  | p :: rest, i, t, dd =>
    if p.bPoseIsValid then
      let timestamp := env.clock t
      let info := get_device_name_type_and_serial env i
      let flat_pose := p.mDeviceToAbsoluteTracking.flatten
      sweepGo env rest (i + 1) (t + 1)
        (addTo dd info.2.1 ⟨timestamp, i, info.1, info.2.2, flat_pose⟩)
    else
      sweepGo env rest (i + 1) t dd

/-- `get_tracker_data()`: one sweep over the pose array, starting from the
fresh four-key dictionary; returns the dictionary and the advanced
clock-call counter. -/
def get_tracker_data (env : Env) (poses : List Pose) (t : Nat) :
    DeviceData × Nat :=
  sweepGo env poses 0 t emptyDD

/-- Output file name `f"{device_type.lower()}_{device_serial}_data.csv"`. -/
def fileNameFor (device_type : String) (device_serial : String) : String :=
  device_type.toLower ++ "_" ++ device_serial ++ "_data.csv"

/-- Read a file's rows; `none` when the file does not exist. -/
def getFile : FS → String → Option (List Row)
  | [], _ => none
  | (n, rs) :: rest, f => if n = f then some rs else getFile rest f

/-- Write a file's rows, creating the file (at the end) when missing. -/
def setFile : FS → String → List Row → FS
  | [], f, rs => [(f, rs)]
  | (n, old) :: rest, f, rs =>
    if n = f then (f, rs) :: rest else (n, old) :: setFile rest f rs

/-- Rows of a file after one append-mode write: when the file is empty at
open time (`csv_file.tell() == 0`) the header row is written first, then
the data row is appended. -/
def newRows (cur : List Row) (r : PoseSample) : List Row :=
  (if cur.isEmpty then [Row.header] else cur) ++ [Row.data r]

/-- The body of the inner loop of `write_data_to_files` for one record:
open the record's `(role, serial)` file in append mode (creating it empty
when missing), write the header when the file is empty, append the row. -/
def writeOne (fs : FS) (device_type : String) (r : PoseSample) : FS :=
  setFile fs (fileNameFor device_type r.deviceSerial)
    (newRows ((getFile fs (fileNameFor device_type r.deviceSerial)).getD []) r)

/-- `for device in devices:` — write each record of one role bucket. -/
def writeRecords (device_type : String) : List PoseSample → FS → FS
  | [], fs => fs
  | r :: rest, fs => writeRecords device_type rest (writeOne fs device_type r)

/-- `for device_type, devices in data_buffer.items():` — write the whole
buffer, role bucket by role bucket. -/
def writeEntries : DeviceData → FS → FS
  | [], fs => fs
  | (ty, rs) :: rest, fs => writeEntries rest (writeRecords ty rs fs)

/-- Result of `write_data_to_files`: the filesystem after whatever I/O
happened, the caller-visible content of the buffer object after the call,
and normal return versus raised exception. -/
structure WriteResult where
  fs : FS
  buffer : DeviceData
  result : Except String Unit

/-- `write_data_to_files(data_buffer, export_format)`: any format other than
`"csv"` raises a `ValueError` before any file is touched; otherwise every
buffered record is appended to its `(role, serial)` file. The function never
writes to the buffer it is given. -/
def write_data_to_files (data_buffer : DeviceData) (export_format : String)
    (fs : FS) : WriteResult :=
  if export_format ≠ "csv" then
    ⟨fs, data_buffer, .error "Only CSV format is supported in this optimized version."⟩
  else
    ⟨writeEntries data_buffer fs, data_buffer, .ok ()⟩

/-- Mutable state of the `record_indefinitely` loop: the clock-call counter,
the loop-iteration index (used to read the `another` flag and the per-sweep
pose array), the filesystem, the buffer, and bookkeeping traces — the
`(elapsed, slept)` pair of every executed `time.sleep`, the number of
batch flushes performed, and the total number of records absorbed. -/
structure LoopState where
  t : Nat
  iter : Nat
  fs : FS
  buf : DeviceData
  sleeps : List (ℚ × ℚ)
  flushes : Nat
  absorbed : Nat
deriving DecidableEq

/-- The state in which both recording loops start. -/
def initState : LoopState := ⟨0, 0, [], emptyDD, [], 0, 0⟩

/-- Lines 118–120 of the source: when the buffered total has reached the
batch size, persist the whole buffer and replace it by a fresh empty
dictionary; otherwise leave filesystem and buffer alone. Returns the new
filesystem, buffer and flush count, or the exception `write_data_to_files`
raised. -/
def flushStep (data_buffer : DeviceData) (export_format : String) (fs : FS)
    (batch_size : Nat) (flushes : Nat) : Except String (FS × DeviceData × Nat) :=
  if batch_size ≤ totalBuf data_buffer then
    match write_data_to_files data_buffer export_format fs with
    | ⟨fs2, _, .ok _⟩ => .ok (fs2, emptyDD, flushes + 1)
    | ⟨_, _, .error e⟩ => .error e
  else
    .ok (fs, data_buffer, flushes)

/-- One iteration of the `while another:` body of `record_indefinitely`:
record the tick-start instant, sweep, absorb the sweep into the buffer,
flush when the batch size is reached, then sleep the residual
`max(0, 1/hz - elapsed)`. -/
def indefStep (env : Env) (hz : Nat) (batch_size : Nat) (export_format : String)
    (s : LoopState) : Except String LoopState :=
  let start_time := env.clock s.t
  let swept := get_tracker_data env (env.poses s.iter) (s.t + 1)
  let data_buffer := extendBuf s.buf swept.1
  match flushStep data_buffer export_format s.fs batch_size s.flushes with
  | .error e => .error e
  | .ok (fs2, buf2, fl2) =>
    let elapsed := env.clock swept.2 - start_time
    .ok ⟨swept.2 + 1, s.iter + 1, fs2, buf2,
         s.sleeps ++ [(elapsed, max 0 (1 / (hz : ℚ) - elapsed))],
         fl2, s.absorbed + totalBuf swept.1⟩

/-- The `while another:` loop, driven by fuel. `some s` is a normal loop
exit (flag observed false) with final state `s`; `none` is fuel exhaustion
(the run was still going). -/
def indefGo (env : Env) (hz : Nat) (batch_size : Nat) (export_format : String) :
    Nat → LoopState → Except String (Option LoopState)
  | 0, _ => .ok none
  | fuel + 1, s =>
    if env.another s.iter then
      match indefStep env hz batch_size export_format s with
      | .error e => .error e
      | .ok s2 => indefGo env hz batch_size export_format fuel s2
    else
      .ok (some s)

/-- `record_indefinitely(hz, export_format)`: batch size `max(1, hz)`, fresh
buffer and empty filesystem, then the cancellable loop. Note the source
performs no terminal drain after the loop: whatever the buffer holds at
exit is simply returned inside the final state, unwritten. -/
def record_indefinitely (env : Env) (hz : Nat) (export_format : String)
    (fuel : Nat) : Except String (Option LoopState) :=
  indefGo env hz (max 1 hz) export_format fuel initState

/-- Python tuple unpacking `a, b = xs` over the keys of a dictionary:
succeeds only when there are exactly two items. -/
def unpackTwo (l : List String) : Except String (String × String) :=
  match l with
  | [a, b] => .ok (a, b)
  | _ =>
    .error (if l.length < 2 then "not enough values to unpack (expected 2)"
            else "too many values to unpack (expected 2)")

/-- Sleep duration of the fixed-duration loop, read off line 94 of the
source: `time.sleep(1/hz)` — the full period, with no subtraction of the
tick's processing time. -/
def fixedSleep (hz : Nat) : ℚ := 1 / (hz : ℚ)

/-- Mutable state of the `record_for_preset_time` loop: clock-call counter,
iteration index, filesystem, executed sleep durations. -/
structure PresetState where
  t : Nat
  iter : Nat
  fs : FS
  sleeps : List ℚ
deriving DecidableEq

/-- The `while time.time() - start_time < duration_seconds:` loop of
`record_for_preset_time`. Each condition check reads the clock once. The
body executes `device_data, completion_rate = get_tracker_data()`; since
`get_tracker_data` returns a four-key dictionary, the two-name unpacking of
its keys always raises `ValueError` (see `preset_unpack_always_fails`), so
the rest of the body — writing the sweep and sleeping the flat `1/hz` — is
dead code. -/
def presetGo (env : Env) (duration_seconds : ℚ) (hz : Nat)
    (export_format : String) (start_time : ℚ) :
    Nat → PresetState → Except String (Option PresetState)
  | 0, _ => .ok none
  | fuel + 1, s =>
    if env.clock s.t - start_time < duration_seconds then
      let swept := get_tracker_data env (env.poses s.iter) (s.t + 1)
      match unpackTwo (ddKeys swept.1) with
      | .error e => .error e
      | .ok _ =>
        presetGo env duration_seconds hz export_format start_time fuel
          ⟨swept.2, s.iter + 1, s.fs, s.sleeps ++ [fixedSleep hz]⟩
    else
      .ok (some ⟨s.t + 1, s.iter, s.fs, s.sleeps⟩)

/-- `record_for_preset_time(duration_seconds, hz, export_format)`: read the
start instant, then loop until the elapsed wall-clock time reaches the
duration. -/
def record_for_preset_time (env : Env) (duration_seconds : ℚ) (hz : Nat)
    (export_format : String) (fuel : Nat) : Except String (Option PresetState) :=
  presetGo env duration_seconds hz export_format (env.clock 0) fuel ⟨1, 0, [], []⟩

/-- Processing time of one `record_indefinitely` tick from state `s`: the
difference between the clock reading taken just after the sweep-and-flush
work (line 123) and the tick-start reading (line 110). -/
def tickElapsed (env : Env) (s : LoopState) : ℚ :=
  env.clock (get_tracker_data env (env.poses s.iter) (s.t + 1)).2 - env.clock s.t

/-- Boolean header-row recogniser. -/
def isHeaderB : Row → Bool
  | Row.header => true
  | Row.data _ => false

/-- Well-formedness of one file's rows: exactly one header row, and it is
the first row. -/
def GoodRows (rows : List Row) : Prop :=
  (rows.filter isHeaderB).length = 1 ∧ rows.head? = some Row.header

/-- Well-formedness of the whole filesystem: every existing file has exactly
one header row, sitting at the top. -/
def Good (fs : FS) : Prop := ∀ p ∈ fs, GoodRows p.2

/-- A single always-valid headset pose with an identity 3×4 transform. -/
def poseA : Pose := ⟨true, [[1, 0, 0, 0], [0, 1, 0, 0], [0, 0, 1, 0]]⟩

/-- Concrete environment: one valid headset device in every sweep, a clock
that advances one second per reading, and a cancellation flag that turns
false at the eighth loop-condition check (so after seven absorbed records). -/
def envA : Env :=
  { clock := fun n => (n : ℚ)
    poses := fun _ => [poseA]
    devName := fun _ => "VIVE_HMD"
    devSerial := fun _ => "S1"
    devClass := fun _ => TrackedDeviceClass_HMD
    another := fun i => decide (i < 7) }

/-- Like `envA` but with two valid headset devices per sweep. -/
def envB : Env := { envA with poses := fun _ => [poseA, poseA] }

/-- Final state of the cancelled seven-tick indefinite run over `envA`. -/
def sA : LoopState :=
  match record_indefinitely envA 10 "csv" 20 with
  | .ok (some s) => s
  | _ => initState

/-- State after one tick of the indefinite loop over `envA` with batch size 10
(below the batch size, so no flush). -/
def sB : LoopState :=
  match indefStep envA 10 10 "csv" initState with
  | .ok s => s
  | .error _ => initState

/-- State after one tick of the indefinite loop over `envA` with batch size 1
(the batch size is reached, so this tick flushes). -/
def sC : LoopState :=
  match indefStep envA 10 1 "csv" initState with
  | .ok s => s
  | .error _ => initState

/-- The first record produced by a sweep over `envB` starting at clock call 0. -/
def rB : PoseSample := ⟨0, 0, "VIVE_HMD", "S1", [1, 0, 0, 0, 0, 1, 0, 0, 0, 0, 1, 0]⟩

/-- A one-record buffer used to exercise `write_data_to_files`. -/
def bufW : DeviceData := [("Headset", [rB])]

lemma addTo_keys (ty : String) (r : PoseSample) :
    ∀ dd : DeviceData, ddKeys (addTo dd ty r) = ddKeys dd
  | [] => rfl
  | (k, vs) :: rest => by
    by_cases h : k = ty
    · simp [addTo, h, ddKeys]
    · simp [addTo, h, ddKeys]
      simpa [ddKeys] using addTo_keys ty r rest

lemma addTo_total (ty : String) (r : PoseSample) :
    ∀ dd : DeviceData, ty ∈ ddKeys dd →
      totalBuf (addTo dd ty r) = totalBuf dd + 1
  | [], h => by simp [ddKeys] at h
  | (k, vs) :: rest, h => by
    by_cases hk : k = ty
    · simp [addTo, hk, totalBuf]
      omega
    · have hmem : ty ∈ ddKeys rest := by
        rcases (by simpa [ddKeys] using h : ty = k ∨ ty ∈ ddKeys rest) with h1 | h1
        · exact absurd h1.symm hk
        · exact h1
      simp [addTo, hk, totalBuf]
      have := addTo_total ty r rest hmem
      simp [totalBuf] at this
      omega

lemma allRecords_cons (e : String × List PoseSample) (dd : DeviceData) :
    allRecords (e :: dd) = e.2 ++ allRecords dd := rfl

lemma mem_allRecords_addTo (ty : String) (r : PoseSample) :
    ∀ (dd : DeviceData) (x : PoseSample), x ∈ allRecords (addTo dd ty r) →
      x ∈ allRecords dd ∨ x = r
  | [], x, h => Or.inl h
  | (k, vs) :: rest, x, h => by
    by_cases hk : k = ty
    · rw [show addTo ((k, vs) :: rest) ty r = (k, vs ++ [r]) :: rest by
          simp [addTo, hk]] at h
      rw [allRecords_cons] at h
      rw [allRecords_cons]
      rcases List.mem_append.mp h with h1 | h1
      · rcases List.mem_append.mp h1 with h2 | h2
        · exact Or.inl (List.mem_append.mpr (Or.inl h2))
        · exact Or.inr (by simpa using h2)
      · exact Or.inl (List.mem_append.mpr (Or.inr h1))
    · rw [show addTo ((k, vs) :: rest) ty r = (k, vs) :: addTo rest ty r by
          simp [addTo, hk]] at h
      rw [allRecords_cons] at h
      rw [allRecords_cons]
      rcases List.mem_append.mp h with h1 | h1
      · exact Or.inl (List.mem_append.mpr (Or.inl h1))
      · rcases mem_allRecords_addTo ty r rest x h1 with h2 | h2
        · exact Or.inl (List.mem_append.mpr (Or.inr h2))
        · exact Or.inr h2

lemma extendAt_keys (key : String) (v : List PoseSample) :
    ∀ dd : DeviceData, ddKeys (extendAt dd key v) = ddKeys dd
  | [] => rfl
  | (k, vs) :: rest => by
    by_cases h : k = key
    · simp [extendAt, h, ddKeys]
    · simp [extendAt, h, ddKeys]
      simpa [ddKeys] using extendAt_keys key v rest

lemma extendAt_total (key : String) (v : List PoseSample) :
    ∀ dd : DeviceData, key ∈ ddKeys dd →
      totalBuf (extendAt dd key v) = totalBuf dd + v.length
  | [], h => by simp [ddKeys] at h
  | (k, vs) :: rest, h => by
    by_cases hk : k = key
    · simp [extendAt, hk, totalBuf]
      omega
    · have hmem : key ∈ ddKeys rest := by
        rcases (by simpa [ddKeys] using h : key = k ∨ key ∈ ddKeys rest) with h1 | h1
        · exact absurd h1.symm hk
        · exact h1
      simp [extendAt, hk, totalBuf]
      have := extendAt_total key v rest hmem
      simp [totalBuf] at this
      omega

lemma extendBuf_keys : ∀ (dd buf : DeviceData), ddKeys (extendBuf buf dd) = ddKeys buf
  | [], _ => rfl
  | e :: rest, buf => by
    show ddKeys (extendBuf (extendAt buf e.1 e.2) rest) = ddKeys buf
    rw [extendBuf_keys rest, extendAt_keys]

lemma extendBuf_total : ∀ (dd buf : DeviceData), (∀ e ∈ dd, e.1 ∈ ddKeys buf) →
    totalBuf (extendBuf buf dd) = totalBuf buf + totalBuf dd
  | [], buf, _ => by simp [extendBuf, totalBuf]
  | e :: rest, buf, h => by
    show totalBuf (extendBuf (extendAt buf e.1 e.2) rest) = _
    rw [extendBuf_total rest _ (fun e2 he2 => by
          rw [extendAt_keys]
          exact h e2 (List.mem_cons_of_mem _ he2)),
        extendAt_total _ _ buf (h e (List.mem_cons_self _ _))]
    simp [totalBuf]
    omega

lemma device_type_mem (env : Env) (i : Nat) :
    (get_device_name_type_and_serial env i).2.1 ∈ standardKeys := by
  unfold get_device_name_type_and_serial
  dsimp only
  split_ifs <;> simp [standardKeys]

lemma sweepGo_keys (env : Env) : ∀ (ps : List Pose) (i t : Nat) (dd : DeviceData),
    ddKeys (sweepGo env ps i t dd).1 = ddKeys dd
  | [], _, _, _ => rfl
  | p :: rest, i, t, dd => by
    cases hv : p.bPoseIsValid
    · simp [sweepGo, hv, sweepGo_keys env rest]
    · simp [sweepGo, hv]
      rw [sweepGo_keys env rest, addTo_keys]

lemma sweepGo_total (env : Env) : ∀ (ps : List Pose) (i t : Nat) (dd : DeviceData),
    ddKeys dd = standardKeys →
    totalBuf (sweepGo env ps i t dd).1 = totalBuf dd + validCount ps
  | [], _, _, _, _ => by simp [sweepGo, validCount]
  | p :: rest, i, t, dd, h => by
    cases hv : p.bPoseIsValid
    · rw [show sweepGo env (p :: rest) i t dd = sweepGo env rest (i + 1) t dd by
          simp [sweepGo, hv]]
      rw [sweepGo_total env rest (i + 1) t dd h]
      simp [validCount, List.filter_cons, hv]
    · have hmem : (get_device_name_type_and_serial env i).2.1 ∈ ddKeys dd := by
        rw [h]; exact device_type_mem env i
      rw [show sweepGo env (p :: rest) i t dd =
            sweepGo env rest (i + 1) (t + 1)
              (addTo dd (get_device_name_type_and_serial env i).2.1
                ⟨env.clock t, i, (get_device_name_type_and_serial env i).1,
                 (get_device_name_type_and_serial env i).2.2,
                 p.mDeviceToAbsoluteTracking.flatten⟩) by
          simp [sweepGo, hv]]
      rw [sweepGo_total env rest (i + 1) (t + 1) _ (by rw [addTo_keys]; exact h)]
      rw [addTo_total _ _ dd hmem]
      simp [validCount, List.filter_cons, hv]
      omega

lemma sweepGo_stamps (env : Env) : ∀ (ps : List Pose) (i t : Nat)
    (dd : DeviceData) (r : PoseSample), r ∈ allRecords (sweepGo env ps i t dd).1 →
    r ∈ allRecords dd ∨
      (i ≤ r.deviceId ∧ r.deviceId - i < ps.length ∧
       (ps.getD (r.deviceId - i) ⟨false, []⟩).bPoseIsValid = true ∧
       r.timestamp = env.clock (t + validBefore ps (r.deviceId - i)))
  | [], _, _, _, _, h => Or.inl h
  | p :: rest, i, t, dd, r, h => by
    cases hv : p.bPoseIsValid
    · rw [show sweepGo env (p :: rest) i t dd = sweepGo env rest (i + 1) t dd by
          simp [sweepGo, hv]] at h
      rcases sweepGo_stamps env rest (i + 1) t dd r h with h2 | ⟨hge, hlt, hvd, hts⟩
      · exact Or.inl h2
      · refine Or.inr ⟨by omega, by simp; omega, ?_, ?_⟩
        · rw [show r.deviceId - i = r.deviceId - (i + 1) + 1 by omega]
          simpa using hvd
        · rw [show r.deviceId - i = r.deviceId - (i + 1) + 1 by omega]
          rw [show validBefore (p :: rest) (r.deviceId - (i + 1) + 1) =
                validBefore rest (r.deviceId - (i + 1)) by
              simp [validBefore, List.take_succ_cons, List.filter_cons, hv]]
          exact hts
    · rw [show sweepGo env (p :: rest) i t dd =
            sweepGo env rest (i + 1) (t + 1)
              (addTo dd (get_device_name_type_and_serial env i).2.1
                ⟨env.clock t, i, (get_device_name_type_and_serial env i).1,
                 (get_device_name_type_and_serial env i).2.2,
                 p.mDeviceToAbsoluteTracking.flatten⟩) by
          simp [sweepGo, hv]] at h
      rcases sweepGo_stamps env rest (i + 1) (t + 1) _ r h with h2 | ⟨hge, hlt, hvd, hts⟩
      · rcases mem_allRecords_addTo _ _ dd r h2 with h3 | h3
        · exact Or.inl h3
        · have hid : r.deviceId = i := by rw [h3]
          have hts0 : r.timestamp = env.clock t := by rw [h3]
          refine Or.inr ⟨by omega, by simp [hid], ?_, ?_⟩
          · rw [hid, Nat.sub_self]
            simpa using hv
          · rw [hid, Nat.sub_self]
            rw [show validBefore (p :: rest) 0 = 0 from rfl]
            simpa using hts0
      · refine Or.inr ⟨by omega, by simp; omega, ?_, ?_⟩
        · rw [show r.deviceId - i = r.deviceId - (i + 1) + 1 by omega]
          simpa using hvd
        · rw [show r.deviceId - i = r.deviceId - (i + 1) + 1 by omega]
          rw [show validBefore (p :: rest) (r.deviceId - (i + 1) + 1) =
                validBefore rest (r.deviceId - (i + 1)) + 1 by
              simp [validBefore, List.take_succ_cons, List.filter_cons, hv]]
          rw [hts]
          congr 1
          omega

lemma validBefore_lt_validCount : ∀ (ps : List Pose) (k : Nat), k < ps.length →
    (ps.getD k ⟨false, []⟩).bPoseIsValid = true →
    validBefore ps k < validCount ps
  | [], k, hk, _ => by simp at hk
  | p :: rest, 0, _, hvalid => by
    have hp : p.bPoseIsValid = true := by simpa using hvalid
    have h1 : validBefore (p :: rest) 0 = 0 := rfl
    have h2 : validCount (p :: rest) = validCount rest + 1 := by
      simp [validCount, List.filter_cons, hp]
    omega
  | p :: rest, k + 1, hk, hvalid => by
    have hlt : k < rest.length := by simpa using hk
    have hv2 : (rest.getD k ⟨false, []⟩).bPoseIsValid = true := by simpa using hvalid
    have ih := validBefore_lt_validCount rest k hlt hv2
    cases hp : p.bPoseIsValid
    · have h1 : validBefore (p :: rest) (k + 1) = validBefore rest k := by
        simp [validBefore, List.take_succ_cons, List.filter_cons, hp]
      have h2 : validCount (p :: rest) = validCount rest := by
        simp [validCount, List.filter_cons, hp]
      omega
    · have h1 : validBefore (p :: rest) (k + 1) = validBefore rest k + 1 := by
        simp [validBefore, List.take_succ_cons, List.filter_cons, hp]
      have h2 : validCount (p :: rest) = validCount rest + 1 := by
        simp [validCount, List.filter_cons, hp]
      omega

lemma get_tracker_data_keys (env : Env) (poses : List Pose) (t : Nat) :
    ddKeys (get_tracker_data env poses t).1 = standardKeys := by
  unfold get_tracker_data
  rw [sweepGo_keys]
  rfl

lemma get_tracker_data_total (env : Env) (poses : List Pose) (t : Nat) :
    totalBuf (get_tracker_data env poses t).1 = validCount poses := by
  unfold get_tracker_data
  rw [sweepGo_total env poses 0 t emptyDD rfl]
  simp [totalBuf, emptyDD]

lemma getFile_mem : ∀ (fs : FS) (f : String) (rs : List Row),
    getFile fs f = some rs → (f, rs) ∈ fs
  | [], _, _, h => by simp [getFile] at h
  | (n, old) :: rest, f, rs, h => by
    by_cases hn : n = f
    · subst hn
      rw [show getFile ((n, old) :: rest) n = some old by simp [getFile]] at h
      injection h with h
      subst h
      exact List.mem_cons_self _ _
    · rw [show getFile ((n, old) :: rest) f = getFile rest f by simp [getFile, hn]] at h
      exact List.mem_cons_of_mem _ (getFile_mem rest f rs h)

lemma mem_setFile : ∀ (fs : FS) (f : String) (rs : List Row) (p : String × List Row),
    p ∈ setFile fs f rs → p = (f, rs) ∨ p ∈ fs
  | [], f, rs, p, h => by
    rw [show setFile ([] : FS) f rs = [(f, rs)] from rfl] at h
    exact Or.inl (by simpa using h)
  | (n, old) :: rest, f, rs, p, h => by
    by_cases hn : n = f
    · rw [show setFile ((n, old) :: rest) f rs = (f, rs) :: rest by simp [setFile, hn]] at h
      rcases List.mem_cons.mp h with h1 | h1
      · exact Or.inl h1
      · exact Or.inr (List.mem_cons_of_mem _ h1)
    · rw [show setFile ((n, old) :: rest) f rs = (n, old) :: setFile rest f rs by
          simp [setFile, hn]] at h
      rcases List.mem_cons.mp h with h1 | h1
      · exact Or.inr (by simp [h1])
      · rcases mem_setFile rest f rs p h1 with h2 | h2
        · exact Or.inl h2
        · exact Or.inr (List.mem_cons_of_mem _ h2)

lemma goodRows_newRows_nil (r : PoseSample) : GoodRows (newRows [] r) := by
  simp [newRows, GoodRows, isHeaderB, List.filter]

lemma goodRows_newRows (cur : List Row) (r : PoseSample) (h : GoodRows cur) :
    GoodRows (newRows cur r) := by
  obtain ⟨h1, h2⟩ := h
  cases cur with
  | nil => exact goodRows_newRows_nil r
  | cons c cs =>
    have hc : c = Row.header := by simpa using h2
    subst hc
    constructor
    · simpa [newRows, List.filter_append, isHeaderB, List.filter] using h1
    · simp [newRows]

lemma writeOne_good (fs : FS) (ty : String) (r : PoseSample) (h : Good fs) :
    Good (writeOne fs ty r) := by
  intro p hp
  unfold writeOne at hp
  rcases mem_setFile _ _ _ _ hp with hq | hq
  · subst hq
    show GoodRows (newRows ((getFile fs (fileNameFor ty r.deviceSerial)).getD []) r)
    cases hc : getFile fs (fileNameFor ty r.deviceSerial) with
    | none => exact goodRows_newRows_nil r
    | some cs => exact goodRows_newRows cs r (h _ (getFile_mem fs _ cs hc))
  · exact h p hq

lemma writeRecords_good (ty : String) : ∀ (rs : List PoseSample) (fs : FS),
    Good fs → Good (writeRecords ty rs fs)
  | [], _, h => h
  | r :: rest, fs, h => writeRecords_good ty rest _ (writeOne_good fs ty r h)

lemma writeEntries_good : ∀ (dd : DeviceData) (fs : FS),
    Good fs → Good (writeEntries dd fs)
  | [], _, h => h
  | (ty, rs) :: rest, fs, h => writeEntries_good rest _ (writeRecords_good ty rs fs h)

lemma write_csv_ok (db : DeviceData) (fs : FS) :
    write_data_to_files db "csv" fs = ⟨writeEntries db fs, db, .ok ()⟩ := by
  simp [write_data_to_files]

lemma flushStep_cases (db : DeviceData) (fmt : String) (fs : FS) (b fl : Nat)
    (out : FS × DeviceData × Nat) (h : flushStep db fmt fs b fl = .ok out) :
    (b ≤ totalBuf db ∧ out = ((write_data_to_files db fmt fs).fs, emptyDD, fl + 1))
    ∨ (¬ b ≤ totalBuf db ∧ out = (fs, db, fl)) := by
  unfold flushStep at h
  split at h
  case isTrue hb =>
    left
    refine ⟨hb, ?_⟩
    cases hw : write_data_to_files db fmt fs with
    | mk fs2 buf2 res =>
      rw [hw] at h
      cases res with
      | ok u =>
        injection h with h
        exact h.symm
      | error e => cases h
  case isFalse hb =>
    right
    injection h with h
    exact ⟨hb, h.symm⟩

lemma indefStep_ok (env : Env) (hz b : Nat) (fmt : String) (s s2 : LoopState)
    (h : indefStep env hz b fmt s = .ok s2) :
    ∃ out, flushStep (extendBuf s.buf (get_tracker_data env (env.poses s.iter) (s.t + 1)).1)
        fmt s.fs b s.flushes = .ok out ∧
      s2 = ⟨(get_tracker_data env (env.poses s.iter) (s.t + 1)).2 + 1, s.iter + 1,
            out.1, out.2.1,
            s.sleeps ++ [(tickElapsed env s, max 0 (1 / (hz : ℚ) - tickElapsed env s))],
            out.2.2,
            s.absorbed + totalBuf (get_tracker_data env (env.poses s.iter) (s.t + 1)).1⟩ := by
  unfold indefStep at h
  simp only [] at h
  cases hf : flushStep (extendBuf s.buf (get_tracker_data env (env.poses s.iter) (s.t + 1)).1)
      fmt s.fs b s.flushes with
  | error e =>
    rw [hf] at h
    cases h
  | ok out =>
    obtain ⟨fs2, buf2, fl2⟩ := out
    rw [hf] at h
    injection h with h
    exact ⟨(fs2, buf2, fl2), rfl, h.symm⟩

lemma indefStep_inv (env : Env) (hz b : Nat) (fmt : String) (s s2 : LoopState)
    (h : indefStep env hz b fmt s = .ok s2) (hk : ddKeys s.buf = standardKeys) :
    ddKeys s2.buf = standardKeys ∧ s.flushes ≤ s2.flushes ∧
      (s2.flushes = s.flushes →
        s2.fs = s.fs ∧ totalBuf s2.buf + s.absorbed = s2.absorbed + totalBuf s.buf) := by
  obtain ⟨out, hf, rfl⟩ := indefStep_ok env hz b fmt s s2 h
  have hdd : ddKeys (get_tracker_data env (env.poses s.iter) (s.t + 1)).1 = standardKeys :=
    get_tracker_data_keys env _ _
  rcases flushStep_cases _ _ _ _ _ _ hf with ⟨hb, rfl⟩ | ⟨hb, rfl⟩
  · refine ⟨rfl, by simp, fun he => absurd he (by simp)⟩
  · have hcond : ∀ e ∈ (get_tracker_data env (env.poses s.iter) (s.t + 1)).1,
        e.1 ∈ ddKeys s.buf := by
      intro e he
      rw [hk, ← hdd]
      exact List.mem_map_of_mem Prod.fst he
    refine ⟨by rw [extendBuf_keys]; exact hk, le_refl _, fun _ => ⟨rfl, ?_⟩⟩
    show totalBuf (extendBuf s.buf (get_tracker_data env (env.poses s.iter) (s.t + 1)).1) +
        s.absorbed =
      (s.absorbed + totalBuf (get_tracker_data env (env.poses s.iter) (s.t + 1)).1) +
        totalBuf s.buf
    rw [extendBuf_total _ _ hcond]
    omega

lemma indefGo_inv (env : Env) (hz b : Nat) (fmt : String) :
    ∀ (fuel : Nat) (s s2 : LoopState), indefGo env hz b fmt fuel s = .ok (some s2) →
      ddKeys s.buf = standardKeys →
      ddKeys s2.buf = standardKeys ∧ s.flushes ≤ s2.flushes ∧
        (s2.flushes = s.flushes →
          s2.fs = s.fs ∧ totalBuf s2.buf + s.absorbed = s2.absorbed + totalBuf s.buf)
  | 0, s, s2, h, hk => by simp [indefGo] at h
  | fuel + 1, s, s2, h, hk => by
    rw [indefGo] at h
    split at h
    · cases hs : indefStep env hz b fmt s with
      | error e =>
        rw [hs] at h
        cases h
      | ok s1 =>
        rw [hs] at h
        obtain ⟨k1, le1, eq1⟩ := indefStep_inv env hz b fmt s s1 hs hk
        obtain ⟨k2, le2, eq2⟩ := indefGo_inv env hz b fmt fuel s1 s2 h k1
        refine ⟨k2, le_trans le1 le2, fun he => ?_⟩
        obtain ⟨f1, t1⟩ := eq1 (by omega)
        obtain ⟨f2, t2⟩ := eq2 (by omega)
        exact ⟨f2.trans f1, by omega⟩
    · injection h with h
      injection h with h
      subst h
      exact ⟨hk, le_refl _, fun _ => ⟨rfl, by omega⟩⟩

lemma preset_unpack_always_fails (env : Env) (poses : List Pose) (t : Nat) :
    unpackTwo (ddKeys (get_tracker_data env poses t).1) =
      .error "too many values to unpack (expected 2)" := by
  rw [get_tracker_data_keys]
  rfl


lemma presetGo_first_tick_fails (env : Env) (d : ℚ) (hz : Nat) (fmt : String)
    (st : ℚ) (fuel : Nat) (s : PresetState) (hlt : env.clock s.t - st < d) :
    presetGo env d hz fmt st (fuel + 1) s =
      .error "too many values to unpack (expected 2)" := by
  rw [presetGo]
  rw [if_pos hlt]
  simp only []
  rw [preset_unpack_always_fails]

/-- C4: for every sweep, the number of `PoseSample` records produced equals
the number of device slots whose pose is valid in that sweep; every
valid-pose slot yields exactly one record and every invalid-pose slot is
silently skipped (the sweep is a total function — no error path exists). -/
theorem C4_records_eq_valid_slots (env : Env) (poses : List Pose) (t : Nat) :
    totalBuf (get_tracker_data env poses t).1 = validCount poses :=
  get_tracker_data_total env poses t

/-- C9: every call to the sweep operation returns a dictionary whose key set
is exactly the four roles Headset, Controller, Tracker, Unknown, in that
order, each mapped to a (possibly empty) record list — even when no device
has a valid pose. -/
theorem C9_sweep_has_exactly_four_role_keys (env : Env) (poses : List Pose) (t : Nat) :
    ddKeys (get_tracker_data env poses t).1 =
      ["Headset", "Controller", "Tracker", "Unknown"] :=
  get_tracker_data_keys env poses t

/-- C10: `write_data_to_files` only reads the buffer it is given: after the
call (for any buffer, any format, any filesystem) the caller-visible buffer
holds exactly the same roles and record sequences, in the same order, as
before; clearing is done by the caller. -/
theorem C10_persist_leaves_buffer_unchanged (data_buffer : DeviceData)
    (export_format : String) (fs : FS) :
    (write_data_to_files data_buffer export_format fs).buffer = data_buffer := by
  unfold write_data_to_files
  split <;> rfl

/-- C6: for every call to `write_data_to_files` with a format other than
`"csv"`, the call raises the configuration `ValueError` and the filesystem
is returned exactly as it was — no file is created, opened or written, so
no partial write can precede the failure. -/
theorem C6_unsupported_format_fails_before_io (data_buffer : DeviceData)
    (export_format : String) (fs : FS) (h : export_format ≠ "csv") :
    write_data_to_files data_buffer export_format fs =
      ⟨fs, data_buffer,
       .error "Only CSV format is supported in this optimized version."⟩ := by
  simp [write_data_to_files, h]

/-- Witness for C6 at the concrete unsupported format `"xlsx"` of Scenario B. -/
theorem C6_unsupported_format_fails_before_io_witness :
    write_data_to_files emptyDD "xlsx" [] =
      ⟨[], emptyDD,
       .error "Only CSV format is supported in this optimized version."⟩ :=
  C6_unsupported_format_fails_before_io emptyDD "xlsx" [] (by decide)

/-- C7: the header-once invariant. If every file of the filesystem contains
exactly one header row, sitting first (true in particular of the empty
filesystem a run starts from), then after any `write_data_to_files` call —
hence after any number of flushes — every file still contains exactly one
header row: the header is written precisely when a file is empty at open
time, and only then. -/
theorem C7_header_written_exactly_once (data_buffer : DeviceData)
    (export_format : String) (fs : FS) (h : Good fs) :
    Good (write_data_to_files data_buffer export_format fs).fs := by
  unfold write_data_to_files
  split
  · exact h
  · exact writeEntries_good data_buffer fs h

/-- Witness for C7: flushing a one-record buffer into the empty filesystem
keeps the header-once invariant. -/
theorem C7_header_written_exactly_once_witness :
    Good ([] : FS) ∧ Good (write_data_to_files bufW "csv" []).fs :=
  ⟨by simp [Good], C7_header_written_exactly_once bufW "csv" [] (by simp [Good])⟩

/-- C3 counterexample: the claim that all records of one sweep carry one
identical timestamp is false. In the sweep over `envB` (two valid devices,
clock advancing one second per reading) the two produced records carry the
distinct timestamps 0 and 1, because the source calls `time.time()` inside
the per-device loop, once per valid device. -/
theorem C3_counterexample :
    ¬ ∀ r1 ∈ allRecords (get_tracker_data envB (envB.poses 0) 0).1,
        ∀ r2 ∈ allRecords (get_tracker_data envB (envB.poses 0) 0).1,
          r1.timestamp = r2.timestamp := by
  decide

/-- C3 (amended): each record's timestamp is captured per device, not once
per sweep. Every record of a sweep started at clock call `t` belongs to a
valid slot and is stamped with the reading of call
`t + (number of valid slots before its own slot)` — so the j-th valid
device of the sweep gets exactly the j-th successive clock reading, and
timestamps within a sweep coincide only when those successive readings do. -/
theorem C3_timestamp_captured_per_device (env : Env) (poses : List Pose) (t : Nat)
    (r : PoseSample) (h : r ∈ allRecords (get_tracker_data env poses t).1) :
    r.deviceId < poses.length ∧
    (poses.getD r.deviceId ⟨false, []⟩).bPoseIsValid = true ∧
    validBefore poses r.deviceId < validCount poses ∧
    r.timestamp = env.clock (t + validBefore poses r.deviceId) := by
  rcases sweepGo_stamps env poses 0 t emptyDD r h with h2 | ⟨hge, hlt, hvd, hts⟩
  · simp [allRecords, emptyDD] at h2
  · rw [Nat.sub_zero] at hlt hvd hts
    exact ⟨hlt, hvd, validBefore_lt_validCount poses _ hlt hvd, hts⟩

/-- Witness for C3 at the concrete record `rB` of the `envB` sweep: it sits
in slot 0, which is valid, has no valid slots before it, and carries the
clock reading of call 0 + 0. -/
theorem C3_timestamp_captured_per_device_witness :
    rB ∈ allRecords (get_tracker_data envB (envB.poses 0) 0).1 ∧
      (rB.deviceId < (envB.poses 0).length ∧
       ((envB.poses 0).getD rB.deviceId ⟨false, []⟩).bPoseIsValid = true ∧
       validBefore (envB.poses 0) rB.deviceId < validCount (envB.poses 0) ∧
       rB.timestamp = envB.clock (0 + validBefore (envB.poses 0) rB.deviceId)) :=
  ⟨by decide, C3_timestamp_captured_per_device envB (envB.poses 0) 0 rB (by decide)⟩

/-- C5: in the `record_indefinitely` loop, after every absorb of a sweep into
the buffer, a flush — persisting the whole buffer with
`write_data_to_files` and replacing it by the fresh empty four-role
dictionary — occurs on that tick if and only if the total buffered record
count has reached the configured batch size; otherwise the buffer keeps the
absorbed records and the filesystem is untouched. -/
theorem C5_flush_iff_batch_reached (env : Env) (hz batch : Nat) (s s2 : LoopState)
    (h : indefStep env hz batch "csv" s = .ok s2) :
    (s2.flushes = s.flushes + 1 ↔
      batch ≤ totalBuf (extendBuf s.buf (get_tracker_data env (env.poses s.iter) (s.t + 1)).1))
    ∧ (batch ≤ totalBuf (extendBuf s.buf (get_tracker_data env (env.poses s.iter) (s.t + 1)).1) →
        s2.buf = emptyDD ∧
        s2.fs = (write_data_to_files
          (extendBuf s.buf (get_tracker_data env (env.poses s.iter) (s.t + 1)).1) "csv" s.fs).fs)
    ∧ (totalBuf (extendBuf s.buf (get_tracker_data env (env.poses s.iter) (s.t + 1)).1) < batch →
        s2.buf = extendBuf s.buf (get_tracker_data env (env.poses s.iter) (s.t + 1)).1 ∧
        s2.fs = s.fs) := by
  obtain ⟨out, hf, rfl⟩ := indefStep_ok env hz batch "csv" s _ h
  rcases flushStep_cases _ _ _ _ _ _ hf with ⟨hb, rfl⟩ | ⟨hb, rfl⟩
  · exact ⟨by simp [hb], fun _ => ⟨rfl, rfl⟩, fun hlt => absurd hb (by omega)⟩
  · refine ⟨?_, fun hle => absurd hle hb, fun _ => ⟨rfl, rfl⟩⟩
    show s.flushes = s.flushes + 1 ↔ _
    simp [hb]

/-- Witness for C5: with batch size 1 the first tick over `envA` reaches the
batch size, so that tick flushes and resets the buffer. -/
theorem C5_flush_iff_batch_reached_witness : sC.buf = emptyDD :=
  ((C5_flush_iff_batch_reached envA 10 1 initState sC (by rfl)).2.1 (by decide)).1

/-- C8 counterexample: the claim that both capture modes sleep
`max(0, period - elapsed)` each tick is false for the fixed-duration mode:
line 94 of the source sleeps the flat period `1/hz`. At a tick whose
processing time is a full period (elapsed = 1/10 s at 10 Hz) the claim
prescribes a zero sleep, but the source's fixed-mode sleep duration is
1/10 s. -/
theorem C8_counterexample : fixedSleep 10 ≠ max 0 (1 / (10 : ℚ) - 1 / 10) := by
  norm_num [fixedSleep]

/-- C8 (amended): only the indefinite mode implements residual-sleep pacing:
every executed tick of `record_indefinitely` appends to the sleep trace
exactly the pair (elapsed processing time, `max(0, 1/hz - elapsed)`), where
the elapsed time spans the sweep-absorb-flush work of that tick. The
fixed-duration mode's sleep statement is the flat `fixedSleep hz = 1/hz`
(and is in fact unreachable, see C2). -/
theorem C8_indefinite_mode_residual_sleep (env : Env) (hz batch : Nat)
    (fmt : String) (s s2 : LoopState) (h : indefStep env hz batch fmt s = .ok s2) :
    s2.sleeps = s.sleeps ++
      [(tickElapsed env s, max 0 (1 / (hz : ℚ) - tickElapsed env s))] := by
  obtain ⟨out, _, rfl⟩ := indefStep_ok env hz batch fmt s _ h
  rfl

/-- Witness for C8 at the first tick of the indefinite loop over `envA`. -/
theorem C8_indefinite_mode_residual_sleep_witness :
    sB.sleeps = initState.sleeps ++
      [(tickElapsed envA initState, max 0 (1 / (10 : ℚ) - tickElapsed envA initState))] :=
  C8_indefinite_mode_residual_sleep envA 10 10 "csv" initState sB (by rfl)

/-- C1 counterexample: the claim that on cancellation every buffered, not yet
flushed record is written before shutdown is false. Over `envA` (one valid
device per sweep, batch size `max 1 10 = 10`, cancellation after seven
iterations) the run exits normally holding seven records in the buffer,
having performed no flush — and the filesystem is still empty: no output
file was ever created, so the seven records are lost. -/
theorem C1_counterexample :
    record_indefinitely envA 10 "csv" 20 = .ok (some sA) ∧
      totalBuf sA.buf = 7 ∧ sA.fs = [] ∧ sA.flushes = 0 :=
  ⟨by rfl, by rfl, by rfl, by rfl⟩

/-- C1 (amended): `record_indefinitely` performs no terminal drain on loop
exit. Writes happen only through the in-loop batch flush, so any run that
is cancelled before ever reaching the batch size (zero flushes) ends with
the filesystem exactly as it started — empty — while its buffer still holds
every absorbed record: residual data is dropped, not persisted. -/
theorem C1_no_terminal_drain (env : Env) (hz : Nat) (fmt : String) (fuel : Nat)
    (s2 : LoopState) (h : record_indefinitely env hz fmt fuel = .ok (some s2))
    (h0 : s2.flushes = 0) : s2.fs = [] ∧ totalBuf s2.buf = s2.absorbed := by
  obtain ⟨k, le, eq⟩ :=
    indefGo_inv env hz (max 1 hz) fmt fuel initState s2 h (by rfl)
  obtain ⟨hf, ht⟩ := eq (by simpa [initState] using h0)
  refine ⟨by simpa [initState] using hf, ?_⟩
  have : totalBuf initState.buf = 0 := by rfl
  have : initState.absorbed = 0 := by rfl
  omega

/-- Witness for C1 at the concrete cancelled run `sA`: seven records absorbed,
none flushed, none written. -/
theorem C1_no_terminal_drain_witness :
    (sA.fs = [] ∧ totalBuf sA.buf = sA.absorbed) ∧ sA.absorbed = 7 :=
  ⟨C1_no_terminal_drain envA 10 "csv" 20 sA (by rfl) (by rfl), by rfl⟩

/-- C2: the fixed-duration recording loop can never complete a single tick,
let alone terminate normally when the elapsed time exceeds the duration:
its first statement `device_data, completion_rate = get_tracker_data()`
unpacks the four-key dictionary returned by `get_tracker_data` into two
names and therefore raises `ValueError` on the first iteration of every
run that enters the loop body (here: duration 2 s, 10 Hz, `envA`). -/
theorem C2_preset_mode_crashes_on_first_tick :
    record_for_preset_time envA 2 10 "csv" 5 =
      .error "too many values to unpack (expected 2)" := by
  show presetGo envA 2 10 "csv" (envA.clock 0) 5 ⟨1, 0, [], []⟩ = _
  exact presetGo_first_tick_fails envA 2 10 "csv" (envA.clock 0) 4 ⟨1, 0, [], []⟩
    (show envA.clock 1 - envA.clock 0 < (2 : ℚ) by norm_num [envA])
